import Mathlib

/-!
Shallow embedding of `src/refactor_20250929_1.py`: a batch processor that
validates an input sequence, splits it into chunks of `batch_size`, applies
the per-item transform `item * 6 + 67`, keeps results `> 99`, and maintains
cumulative `processed` / `failed` counters.

Modelling conventions:
* An input element is `some n` for a numeric value `n : ℤ` (the script only
  ever feeds integers), or `Option.none` for a non-numeric element (such as
  Python `None`) on which `item * 6 + 67` raises; that exception is caught
  inside `_process_batch` and the item is skipped.
* The argument of `process` / `validate` is a `PyData`: Python `None`, a
  list, a tuple, or some non-sequence value (number, dict, string, ...).
* Mutable state (`self.metrics`) is passed explicitly: `process` takes the
  metrics before the call and returns the result paired with the metrics
  after the call.
* The loop `for i in range(0, len(data), batch_size)` is embedded with a
  fuel parameter bounding the iteration count; `fuel = len(data)` always
  suffices for a positive step, since `i` advances by at least 1 per pass.
* Python float division in `success_rate` is modelled as exact division
  in `ℚ`; no claim depends on its value.
-/

/-- An element of an input sequence: `some n` is the numeric value `n`,
`Option.none` is a non-numeric element whose transformation raises. -/
abbrev Item := Option Int

/-- A Python value passed to `process` or `validate`: `None`, a list, a
tuple, or a non-sequence value of any other type. -/
inductive PyData
  | none
  | list (xs : List Item)
  | tuple (xs : List Item)
  | other
deriving DecidableEq

/-- The four-field configuration dict.  `batch_size` is an arbitrary
integer; only it affects behaviour. -/
structure Config where
  batch_size : Int
  timeout : Int
  retry_count : Int
  enable_caching : Bool
deriving DecidableEq

/-- `_get_default_config`: batch_size 97, timeout 3024, retry_count 3,
enable_caching True. -/
def _get_default_config : Config := ⟨97, 3024, 3, true⟩

/-- The mutable `self.metrics` dict: `processed`, `failed`, and the
`performance` list (initialised empty and never written). -/
structure Metrics where
  processed : Nat
  failed : Nat
  performance : List Int
deriving DecidableEq

/-- The metrics of a freshly constructed processor (`__init__`). -/
def initMetrics : Metrics := ⟨0, 0, []⟩

/-- The snapshot dict returned by `get_metrics`. -/
structure MetricsSnapshot where
  total_processed : Nat
  total_failed : Nat
  success_rate : ℚ
  config : Config
deriving DecidableEq

/-- `get_metrics`: snapshot of the counters, the derived success rate
`processed / max(1, processed + failed)`, and the active config. -/
def get_metrics (cfg : Config) (m : Metrics) : MetricsSnapshot :=
  ⟨m.processed, m.failed, (m.processed : ℚ) / ((max 1 (m.processed + m.failed) : ℕ) : ℚ), cfg⟩

/-- The `ProcessingResult` dataclass. -/
structure ProcessingResult where
  success : Bool
  data : Option (List Int)
  error : Option String
  metrics : Option MetricsSnapshot
deriving DecidableEq

/-- `validate`: False on `None`, False when not a list or tuple, False on
length 0, True otherwise. -/
def validate : PyData → Bool
  | PyData.none => false
  | PyData.list xs => if xs.length = 0 then false else true
  | PyData.tuple xs => if xs.length = 0 then false else true
  | PyData.other => false

/-- `_apply_transformation`: `item * 6 + 67` on a numeric item; on a
non-numeric item the multiplication raises, modelled as `Option.none`. -/
def _apply_transformation : Item → Option Int
  | some n => some (n * 6 + 67)
  | Option.none => Option.none

/-- `_validate_result`: keep a transformed value iff it exceeds 99. -/
def _validate_result (result : Int) : Bool := 99 < result

/-- `_process_batch`: transform each item, keep it when `_validate_result`
holds; a raising item is caught (`except` branch) and skipped. -/
def _process_batch : List Item → List Int
  | [] => []
  | item :: rest =>
    match _apply_transformation item with
    | some processed =>
      if _validate_result processed then processed :: _process_batch rest
      else _process_batch rest
    | Option.none => _process_batch rest

/-- The loop `for i in range(0, len(data), batch_size)` of `process` for a
positive step `batch_size = b + 1`: each pass takes the slice
`data[i : i + batch_size]`, runs `_process_batch` on it and extends
`results`.  `fuel` bounds the number of passes; `fuel = len(data)` is
always enough since `i` grows by at least 1 per pass. -/
def batchLoop (b : Nat) (xs : List Item) : Nat → Nat → List Int → List Int
  | 0, _, results => results
  | fuel + 1, i, results =>
    if i < xs.length then
      batchLoop b xs fuel (i + (b + 1)) (results ++ _process_batch ((xs.drop i).take (b + 1)))
    else results

/-- The underlying element list of a sequence value. -/
def pyItems : PyData → List Item
  | PyData.list xs => xs
  | PyData.tuple xs => xs
  | _ => []

/-- `process`: validation failure returns the fixed failure result and
leaves the metrics untouched.  Otherwise the batch loop runs; the three
cases of `range(0, len(data), batch_size)` are: a positive step iterates
the chunks; a zero step raises `ValueError("range() arg 3 must not be
zero")`, caught by the top-level `except`, which increments `failed` and
returns a failure result carrying `str(e)`; a negative step yields an
empty range, so zero iterations, `results == []`, and the success path
adds `len(results) == 0` to `processed`. -/
def process (cfg : Config) (m : Metrics) (data : PyData) : ProcessingResult × Metrics :=
  if validate data then
    match cfg.batch_size with
    | Int.ofNat 0 =>
      (⟨false, Option.none, some "range() arg 3 must not be zero", Option.none⟩,
        ⟨m.processed, m.failed + 1, m.performance⟩)
    | Int.ofNat (b + 1) =>
      let xs := pyItems data
      let results := batchLoop b xs xs.length 0 []
      (⟨true, some results, Option.none,
          some (get_metrics cfg ⟨m.processed + results.length, m.failed, m.performance⟩)⟩,
        ⟨m.processed + results.length, m.failed, m.performance⟩)
    | Int.negSucc _ =>
      (⟨true, some [], Option.none,
          some (get_metrics cfg ⟨m.processed + 0, m.failed, m.performance⟩)⟩,
        ⟨m.processed + 0, m.failed, m.performance⟩)
  else (⟨false, Option.none, some "Validation failed", Option.none⟩, m)

/-- A sequence of `process` calls on one processor instance, threading the
metrics state. -/
def runCalls (cfg : Config) : Metrics → List PyData → Metrics
  | m, [] => m
  | m, d :: ds => runCalls cfg (process cfg m d).2 ds

/-- The number of kept results a call on input `d` emits (the data output
of `process` does not depend on the metrics state, so the fresh-instance
value is canonical). -/
def emitted (cfg : Config) (d : PyData) : Nat :=
  ((process cfg initMetrics d).1.data.getD []).length

/-- Modelled from the spec (§8): the comprehension
`[x*6+67 for x in S if x*6+67 > 99]` over a list of numbers. -/
def spec_output (S : List Int) : List Int :=
  (S.map (fun x => x * 6 + 67)).filter (fun y => decide (99 < y))

/-- Modelled from the spec (§8, §4.1): an invalid input is null, an empty
sequence, or a non-sequence value. -/
def spec_invalid (d : PyData) : Prop :=
  d = PyData.none ∨ d = PyData.list [] ∨ d = PyData.tuple [] ∨ d = PyData.other

/-- Modelled from the spec (§4.1): a valid input is a non-null ordered
finite sequence of length at least 1. -/
def spec_valid : PyData → Prop
  | PyData.list xs => 1 ≤ xs.length
  | PyData.tuple xs => 1 ≤ xs.length
  | _ => False

/-- The `__main__` self-test input `list(range(100))`. -/
def test_data : List Item := (List.range 100).map (fun n => some (Int.ofNat n))

/-- `_process_batch` distributes over list append. -/
theorem _process_batch_append (l1 l2 : List Item) :
    _process_batch (l1 ++ l2) = _process_batch l1 ++ _process_batch l2 := by
  induction l1 with
  | nil => simp [_process_batch]
  | cons item rest ih =>
    cases item with
    | none => simpa [_process_batch] using ih
    | some n =>
      by_cases h : _validate_result (n * 6 + 67)
      · simp [_process_batch, _apply_transformation, h, ih]
      · simp [_process_batch, _apply_transformation, h, ih]

/-- `_process_batch` is the spec comprehension applied to the numeric
items, in order. -/
theorem _process_batch_eq_spec (S : List Item) :
    _process_batch S = spec_output (S.filterMap id) := by
  induction S with
  | nil => simp [_process_batch, spec_output]
  | cons item rest ih =>
    cases item with
    | none => simpa [_process_batch, List.filterMap_cons] using ih
    | some n =>
      by_cases h : (99 : Int) < n * 6 + 67
      · simp [_process_batch, _apply_transformation, _validate_result, h,
          List.filterMap_cons, spec_output, ih]
      · simp [_process_batch, _apply_transformation, _validate_result, h,
          List.filterMap_cons, spec_output, ih]

/-- With enough fuel, the batch loop concatenates the per-chunk results of
the remaining suffix, which flattens to `_process_batch` of that suffix. -/
theorem batchLoop_eq (b : Nat) (xs : List Item) :
    ∀ fuel i results, xs.length - i ≤ fuel →
      batchLoop b xs fuel i results = results ++ _process_batch (xs.drop i) := by
  intro fuel
  induction fuel with
  | zero =>
    intro i results h
    have hlen : xs.length ≤ i := by omega
    simp [batchLoop, List.drop_eq_nil_of_le hlen, _process_batch,
      Nat.not_lt.mpr hlen]
  | succ fuel ih =>
    intro i results h
    by_cases hi : i < xs.length
    · rw [batchLoop, if_pos hi, ih (i + (b + 1)) _ (by omega)]
      have hsplit : xs.drop i = (xs.drop i).take (b + 1) ++ ((xs.drop i).drop (b + 1)) :=
        (List.take_append_drop (b + 1) (xs.drop i)).symm
      calc results ++ _process_batch ((xs.drop i).take (b + 1)) ++ _process_batch (xs.drop (i + (b + 1)))
          = results ++ (_process_batch ((xs.drop i).take (b + 1)) ++ _process_batch ((xs.drop i).drop (b + 1))) := by
            rw [List.append_assoc, List.drop_drop]
        _ = results ++ _process_batch (xs.drop i) := by
            rw [← _process_batch_append, ← hsplit]
    · rw [batchLoop, if_neg hi]
      simp [List.drop_eq_nil_of_le (Nat.not_lt.mp hi), _process_batch]

/-- Extracting the numbers of an all-numeric list gives the list back. -/
theorem filterMap_id_map_some (S : List Int) : (S.map some).filterMap id = S := by
  induction S with
  | nil => simp
  | cons x rest ih => simp [List.filterMap_cons, ih]

/-- On a valid input with a positive batch size, `process` succeeds with
the flattened batch results and adds their count to `processed`. -/
theorem process_valid_pos (cfg : Config) (m : Metrics) (d : PyData)
    (hv : validate d = true) (hb : 0 < cfg.batch_size) :
    process cfg m d =
      (⟨true, some (_process_batch (pyItems d)), Option.none,
          some (get_metrics cfg
            ⟨m.processed + (_process_batch (pyItems d)).length, m.failed, m.performance⟩)⟩,
        ⟨m.processed + (_process_batch (pyItems d)).length, m.failed, m.performance⟩) := by
  obtain ⟨b, hb'⟩ : ∃ b : Nat, cfg.batch_size = Int.ofNat (b + 1) := by
    cases hcase : cfg.batch_size with
    | ofNat n =>
      cases n with
      | zero => rw [hcase] at hb; exact absurd hb (by decide)
      | succ b => exact ⟨b, rfl⟩
    | negSucc k => rw [hcase] at hb; exact absurd hb (lt_asymm (Int.negSucc_lt_zero k))
  rw [process, if_pos hv, hb']
  dsimp only
  rw [batchLoop_eq b (pyItems d) (pyItems d).length 0 [] (by omega)]
  simp

/-- The success flag and the data output of a call do not depend on the
metrics state of the processor. -/
theorem process_state_independent (cfg : Config) (m m2 : Metrics) (d : PyData) :
    (process cfg m d).1.success = (process cfg m2 d).1.success ∧
    (process cfg m d).1.data = (process cfg m2 d).1.data := by
  by_cases hv : validate d
  · cases hcase : cfg.batch_size with
    | ofNat n =>
      cases n with
      | zero => simp [process, hv, hcase]
      | succ b =>
        have hb : 0 < cfg.batch_size := by
          rw [hcase]; exact Int.ofNat_pos.mpr (Nat.succ_pos b)
        rw [process_valid_pos cfg m d hv hb, process_valid_pos cfg m2 d hv hb]
        exact ⟨rfl, rfl⟩
    | negSucc k => simp [process, hv, hcase]
  · simp [process, hv]

/-- A single `process` call never decreases either counter. -/
theorem process_step_mono (cfg : Config) (m : Metrics) (d : PyData) :
    m.processed ≤ (process cfg m d).2.processed ∧
    m.failed ≤ (process cfg m d).2.failed := by
  by_cases hv : validate d
  · cases hcase : cfg.batch_size with
    | ofNat n =>
      cases n with
      | zero => simp [process, hv, hcase]
      | succ b =>
        have hb : 0 < cfg.batch_size := by
          rw [hcase]; exact Int.ofNat_pos.mpr (Nat.succ_pos b)
        rw [process_valid_pos cfg m d hv hb]
        exact ⟨Nat.le_add_right _ _, le_refl _⟩
    | negSucc k => simp [process, hv, hcase]
  · simp [process, hv]

/-- A successful call adds exactly its emitted-result count to `processed`
and leaves `failed` unchanged. -/
theorem process_success_step (cfg : Config) (m : Metrics) (d : PyData)
    (h : (process cfg m d).1.success = true) :
    (process cfg m d).2.processed = m.processed + emitted cfg d ∧
    (process cfg m d).2.failed = m.failed := by
  by_cases hv : validate d
  · cases hcase : cfg.batch_size with
    | ofNat n =>
      cases n with
      | zero => rw [process, if_pos hv, hcase] at h; simp at h
      | succ b =>
        have hb : 0 < cfg.batch_size := by
          rw [hcase]; exact Int.ofNat_pos.mpr (Nat.succ_pos b)
        rw [emitted, process_valid_pos cfg m d hv hb,
          process_valid_pos cfg initMetrics d hv hb]
        exact ⟨rfl, rfl⟩
    | negSucc k => simp [process, emitted, hv, hcase]
  · rw [process, if_neg hv] at h; simp at h

/-- Both counters are non-decreasing along any sequence of calls. -/
theorem runCalls_mono (cfg : Config) (ds : List PyData) :
    ∀ m : Metrics, m.processed ≤ (runCalls cfg m ds).processed ∧
      m.failed ≤ (runCalls cfg m ds).failed := by
  induction ds with
  | nil => intro m; simp [runCalls]
  | cons d ds ih =>
    intro m
    rw [runCalls]
    have h1 := process_step_mono cfg m d
    have h2 := ih (process cfg m d).2
    exact ⟨le_trans h1.1 h2.1, le_trans h1.2 h2.2⟩

/-- Along a run of calls that all succeed, `processed` grows by the sum of
the per-call emitted counts. -/
theorem runCalls_processed_sum (cfg : Config) (ds : List PyData) :
    ∀ m : Metrics, (∀ d ∈ ds, (process cfg initMetrics d).1.success = true) →
      (runCalls cfg m ds).processed = m.processed + (ds.map (emitted cfg)).sum := by
  induction ds with
  | nil => intro m _; simp [runCalls]
  | cons d ds ih =>
    intro m hs
    have hd : (process cfg initMetrics d).1.success = true := hs d (by simp)
    have hm : (process cfg m d).1.success = true := by
      rw [(process_state_independent cfg m initMetrics d).1]; exact hd
    have hstep := process_success_step cfg m d hm
    rw [runCalls, ih (process cfg m d).2 (fun d2 h2 => hs d2 (by simp [h2])), hstep.1]
    simp [List.map_cons, List.sum_cons]
    omega

/-- A non-empty list of items passes `validate`. -/
theorem validate_list_of_ne (S : List Item) (hS : S ≠ []) :
    validate (PyData.list S) = true := by
  cases S with
  | nil => exact absurd rfl hS
  | cons x xs => simp [validate]

/-- Claim C1: for every non-empty list `S` of numbers (and any positive
batch size, the data model's range for `batch_size`), `process` succeeds
and its data is the comprehension `[x*6+67 for x in S if x*6+67 > 99]`:
each element is mapped through `y = x*6+67`, only values strictly greater
than 99 are kept, and the original relative order is preserved. -/
theorem C1_process_transform_filter (cfg : Config) (m : Metrics) (S : List Int)
    (hS : S ≠ []) (hB : 0 < cfg.batch_size) :
    ((process cfg m (PyData.list (S.map some))).1).success = true ∧
    ((process cfg m (PyData.list (S.map some))).1).data = some (spec_output S) := by
  have hv : validate (PyData.list (S.map some)) = true := by
    apply validate_list_of_ne
    simpa using hS
  rw [process_valid_pos cfg m _ hv hB]
  refine ⟨rfl, ?_⟩
  simp only [pyItems, _process_batch_eq_spec, filterMap_id_map_some]

/-- Witness for C1 at `S = [10]` with the default configuration. -/
theorem C1_witness :
    ((process _get_default_config initMetrics (PyData.list ([(10 : Int)].map some))).1).success = true ∧
    ((process _get_default_config initMetrics (PyData.list ([(10 : Int)].map some))).1).data
      = some (spec_output [10]) :=
  C1_process_transform_filter _get_default_config initMetrics [10] (by decide) (by decide)

/-- Claim C2: on every invalid input (null, empty sequence, non-sequence),
`process` returns a failure result with error "Validation failed" and null
data, and the metrics are exactly unchanged. -/
theorem C2_invalid_input (cfg : Config) (m : Metrics) (d : PyData)
    (h : spec_invalid d) :
    process cfg m d = (⟨false, Option.none, some "Validation failed", Option.none⟩, m) := by
  have hv : validate d = false := by
    rcases h with h | h | h | h <;> subst h <;> rfl
  rw [process, hv]
  rfl

/-- Witness for C2 at the null input. -/
theorem C2_witness :
    process _get_default_config initMetrics PyData.none
      = (⟨false, Option.none, some "Validation failed", Option.none⟩, initMetrics) :=
  C2_invalid_input _get_default_config initMetrics PyData.none (Or.inl rfl)

/-- Claim C3: for every valid non-empty list input and any two positive
batch sizes, the two processors produce identical data; batching is an
observable no-op partition. -/
theorem C3_batching_no_op (cfg1 cfg2 : Config) (m1 m2 : Metrics) (S : List Item)
    (hS : S ≠ []) (h1 : 0 < cfg1.batch_size) (h2 : 0 < cfg2.batch_size) :
    ((process cfg1 m1 (PyData.list S)).1).data
      = ((process cfg2 m2 (PyData.list S)).1).data := by
  have hv := validate_list_of_ne S hS
  rw [process_valid_pos cfg1 m1 _ hv h1, process_valid_pos cfg2 m2 _ hv h2]

/-- Witness for C3 with batch sizes 1 and 2. -/
theorem C3_witness :
    ((process ⟨1, 3024, 3, true⟩ initMetrics (PyData.list [some 10, Option.none])).1).data
      = ((process ⟨2, 3024, 3, true⟩ initMetrics (PyData.list [some 10, Option.none])).1).data :=
  C3_batching_no_op ⟨1, 3024, 3, true⟩ ⟨2, 3024, 3, true⟩ initMetrics initMetrics
    [some 10, Option.none] (by decide) (by decide) (by decide)

/-- Claim C4: the counters are monotonically non-decreasing across every
sequence of `process` calls, and after a run of calls that all succeed,
started from a fresh instance, the total processed count equals the sum of
the per-call emitted counts. -/
theorem C4_metrics_monotone_sum (cfg : Config) (m : Metrics) (ds : List PyData) :
    (m.processed ≤ (runCalls cfg m ds).processed ∧
      m.failed ≤ (runCalls cfg m ds).failed) ∧
    ((∀ d ∈ ds, (process cfg initMetrics d).1.success = true) →
      (runCalls cfg initMetrics ds).processed = (ds.map (emitted cfg)).sum) := by
  refine ⟨runCalls_mono cfg ds m, fun hs => ?_⟩
  rw [runCalls_processed_sum cfg ds initMetrics hs]
  simp [initMetrics]

/-- Witness for C4 on the one-call run `[[10]]`. -/
theorem C4_witness :
    (initMetrics.processed
        ≤ (runCalls _get_default_config initMetrics [PyData.list [some 10]]).processed ∧
      initMetrics.failed
        ≤ (runCalls _get_default_config initMetrics [PyData.list [some 10]]).failed) ∧
    (runCalls _get_default_config initMetrics [PyData.list [some 10]]).processed
      = ([PyData.list [some 10]].map (emitted _get_default_config)).sum := by
  have h := C4_metrics_monotone_sum _get_default_config initMetrics [PyData.list [some 10]]
  refine ⟨h.1, h.2 ?_⟩
  intro d hd
  simp only [List.mem_singleton] at hd
  subst hd
  decide

/-- Claim C5: `process` never propagates an exception: every call returns
a result, a non-success result always carries an error description, and
the one uncaught exception outside validation and per-item handling (the
zero-step `range`) is turned into a failure result carrying the
exception's text, with `failed` incremented by exactly 1. -/
theorem C5_no_exception_escapes (cfg : Config) (m : Metrics) (d : PyData) :
    ((process cfg m d).1.success = true ∨ ∃ s, (process cfg m d).1.error = some s) ∧
    ((process cfg m d).1.success = false →
      (process cfg m d).1.error ≠ some "Validation failed" →
      (process cfg m d).1.data = Option.none ∧
      (process cfg m d).1.error = some "range() arg 3 must not be zero" ∧
      (process cfg m d).2.failed = m.failed + 1) := by
  by_cases hv : validate d
  · cases hcase : cfg.batch_size with
    | ofNat n =>
      cases n with
      | zero =>
        constructor
        · exact Or.inr ⟨_, by rw [process, if_pos hv, hcase]⟩
        · intro _ _
          rw [process, if_pos hv, hcase]
          exact ⟨rfl, rfl, rfl⟩
      | succ b =>
        have hb : 0 < cfg.batch_size := by
          rw [hcase]; exact Int.ofNat_pos.mpr (Nat.succ_pos b)
        rw [process_valid_pos cfg m d hv hb]
        exact ⟨Or.inl rfl, fun hfalse _ => by simp at hfalse⟩
    | negSucc k =>
      constructor
      · exact Or.inl (by rw [process, if_pos hv, hcase])
      · intro hfalse _
        rw [process, if_pos hv, hcase] at hfalse
        simp at hfalse
  · constructor
    · exact Or.inr ⟨_, by rw [process, if_neg hv]⟩
    · intro _ herr
      exact absurd (by rw [process, if_neg hv]) herr

/-- Witness for C5 at batch size 0 on the valid input `[1]`. -/
theorem C5_witness :
    (process ⟨0, 3024, 3, true⟩ initMetrics (PyData.list [some 1])).1.data = Option.none ∧
    (process ⟨0, 3024, 3, true⟩ initMetrics (PyData.list [some 1])).1.error
      = some "range() arg 3 must not be zero" ∧
    (process ⟨0, 3024, 3, true⟩ initMetrics (PyData.list [some 1])).2.failed
      = initMetrics.failed + 1 :=
  (C5_no_exception_escapes ⟨0, 3024, 3, true⟩ initMetrics (PyData.list [some 1])).2
    (by decide) (by decide)

/-- Claim C6: `validate` returns true iff the input is a non-null ordered
finite sequence of length at least 1, with the three concrete examples of
the spec.  In this embedding `validate` is a pure function, so it has no
side effects and repeated calls agree by construction. -/
theorem C6_validate_pure_spec :
    (∀ d : PyData, validate d = true ↔ spec_valid d) ∧
    validate PyData.none = false ∧
    validate (PyData.list []) = false ∧
    validate (PyData.list [some 1, some 2, some 3]) = true := by
  refine ⟨?_, rfl, rfl, rfl⟩
  intro d
  cases d with
  | none => simp [validate, spec_valid]
  | list xs => cases xs <;> simp [validate, spec_valid]
  | tuple xs => cases xs <;> simp [validate, spec_valid]
  | other => simp [validate, spec_valid]

/-- Witness for C6 on a one-element tuple. -/
theorem C6_witness :
    validate (PyData.tuple [Option.none]) = true ∧ spec_valid (PyData.tuple [Option.none]) := by
  have h2 : spec_valid (PyData.tuple [Option.none]) := by simp [spec_valid]
  exact ⟨(C6_validate_pure_spec.1 (PyData.tuple [Option.none])).2 h2, h2⟩

/-- Claim C7: a valid input containing an item whose transformation raises
(e.g. a `None` inside the list) is processed by skipping that item: the
call still succeeds and its data is the filtered transforms of exactly the
non-failing items, in order. -/
theorem C7_per_item_failure_skipped (cfg : Config) (m : Metrics) (S : List Item)
    (hS : S ≠ []) (_hfail : Option.none ∈ S) (hB : 0 < cfg.batch_size) :
    ((process cfg m (PyData.list S)).1).success = true ∧
    ((process cfg m (PyData.list S)).1).data = some (spec_output (S.filterMap id)) := by
  rw [process_valid_pos cfg m _ (validate_list_of_ne S hS) hB]
  exact ⟨rfl, by simp only [pyItems, _process_batch_eq_spec]⟩

/-- Witness for C7 on `[10, None, 20]`. -/
theorem C7_witness :
    ((process _get_default_config initMetrics
        (PyData.list [some 10, Option.none, some 20])).1).success = true ∧
    ((process _get_default_config initMetrics
        (PyData.list [some 10, Option.none, some 20])).1).data
      = some (spec_output ([some 10, Option.none, some 20].filterMap id)) :=
  C7_per_item_failure_skipped _get_default_config initMetrics
    [some 10, Option.none, some 20] (by decide) (by decide) (by decide)

/-- Claim C8: the `__main__` scenario: a fresh default processor on
`list(range(100))` succeeds with 94 elements, first value 103, last value
661, and the snapshot carried in the result reports 94 processed. -/
theorem C8_demo_scenario :
    (process _get_default_config initMetrics (PyData.list test_data)).1.success = true ∧
    ((process _get_default_config initMetrics (PyData.list test_data)).1.data.getD []).length = 94 ∧
    ((process _get_default_config initMetrics (PyData.list test_data)).1.data.getD []).head?
      = some 103 ∧
    ((process _get_default_config initMetrics (PyData.list test_data)).1.data.getD []).getLast?
      = some 661 ∧
    ((process _get_default_config initMetrics
        (PyData.list test_data)).1.metrics.map MetricsSnapshot.total_processed) = some 94 := by
  decide

/-- Claim C9: with batch size 0 and a valid non-empty list input,
`process` fails with the zero-step `range` exception text and increments
`failed` by exactly 1. -/
theorem C9_zero_batch_size_fails (cfg : Config) (m : Metrics) (S : List Item)
    (hS : S ≠ []) (hB : cfg.batch_size = 0) :
    process cfg m (PyData.list S)
      = (⟨false, Option.none, some "range() arg 3 must not be zero", Option.none⟩,
        ⟨m.processed, m.failed + 1, m.performance⟩) := by
  rw [process, if_pos (validate_list_of_ne S hS), hB]

/-- Witness for C9 at batch size 0 on `[1]`. -/
theorem C9_witness :
    process ⟨0, 3024, 3, true⟩ initMetrics (PyData.list [some 1])
      = (⟨false, Option.none, some "range() arg 3 must not be zero", Option.none⟩,
        ⟨initMetrics.processed, initMetrics.failed + 1, initMetrics.performance⟩) :=
  C9_zero_batch_size_fails ⟨0, 3024, 3, true⟩ initMetrics [some 1] (by decide) rfl

/-- Claim C10: with a negative batch size and a valid non-empty list
input, the batching loop runs zero iterations, so `process` succeeds with
an empty data list, reports no error, and leaves the metrics unchanged
(`processed` incremented by 0). -/
theorem C10_negative_batch_size_empty (cfg : Config) (m : Metrics) (S : List Item)
    (hS : S ≠ []) (hB : cfg.batch_size < 0) :
    ((process cfg m (PyData.list S)).1).success = true ∧
    ((process cfg m (PyData.list S)).1).data = some [] ∧
    ((process cfg m (PyData.list S)).1).error = Option.none ∧
    (process cfg m (PyData.list S)).2 = m := by
  obtain ⟨k, hk⟩ : ∃ k, cfg.batch_size = Int.negSucc k := by
    cases hcase : cfg.batch_size with
    | ofNat n =>
      rw [hcase] at hB
      exact absurd hB (Int.ofNat_nonneg n).not_lt
    | negSucc k => exact ⟨k, rfl⟩
  rw [process, if_pos (validate_list_of_ne S hS), hk]
  exact ⟨rfl, rfl, rfl, rfl⟩

/-- Witness for C10 at batch size -2 on `[1, 2]`. -/
theorem C10_witness :
    ((process ⟨-2, 3024, 3, true⟩ initMetrics (PyData.list [some 1, some 2])).1).success = true ∧
    ((process ⟨-2, 3024, 3, true⟩ initMetrics (PyData.list [some 1, some 2])).1).data = some [] ∧
    ((process ⟨-2, 3024, 3, true⟩ initMetrics (PyData.list [some 1, some 2])).1).error
      = Option.none ∧
    (process ⟨-2, 3024, 3, true⟩ initMetrics (PyData.list [some 1, some 2])).2 = initMetrics :=
  C10_negative_batch_size_empty ⟨-2, 3024, 3, true⟩ initMetrics [some 1, some 2]
    (by decide) (by decide)
